import Mathlib

/-!
Verification of the client-side authentication/registration flow of
`react-test-task` (src/src/components/auth/Login.jsx, containing the
`Login` and `Signup` React components).

The JavaScript code is shallowly embedded: each handler becomes a pure
Lean function from the component state, the navigation hint carried in
`location.state`, the persisted `localStorage` record and the outcome of
the single network call, to a record of the observable effects of one
submission attempt (final error message, final loading flag, whether
`setLoading(true)` ran, the storage written, the navigation issued, how
many times `fetch` was invoked, and what was passed to `console.error`).
-/

/-- Characters matched by the JavaScript regex class `\s` (and removed by
`String.prototype.trim`): space, tab, line terminators, vertical tab,
form feed, NBSP, Ogham space, the U+2000–U+200A range, line/paragraph
separators, narrow NBSP, medium mathematical space, ideographic space and
the BOM. -/
def isJsSpace (c : Char) : Bool :=
  c == ' ' || c == '\t' || c == '\n' || c == '\x0b' || c == '\x0c' || c == '\r' ||
  c == '\u00A0' || c == '\u1680' ||
  (decide (0x2000 ≤ c.toNat) && decide (c.toNat ≤ 0x200A)) ||
  c == '\u2028' || c == '\u2029' || c == '\u202F' || c == '\u205F' ||
  c == '\u3000' || c == '\uFEFF'

/-- JavaScript `String.prototype.trim`: strip leading and trailing
whitespace. -/
def jsTrim (s : String) : String :=
  String.mk (((s.data.dropWhile isJsSpace).reverse.dropWhile isJsSpace).reverse)

/-- JavaScript `v || dflt` on an optional string field: `undefined` and the
empty string are falsy. Used for `location.state?.role || "user"` and
`location.state?.from || "/"` (Login.jsx:37-38) and for
`data.message || "Login failed"` (Login.jsx:83). -/
def jsOrElse (v : Option String) (dflt : String) : String :=
  match v with
  | none => dflt
  | some s => if s = "" then dflt else s

/-- Test of the email regex `/^[^\s@]+@[^\s@]+\.[^\s@]+$/` (Login.jsx:370).
The anchored pattern matches exactly the strings that decompose as
`l ++ "@" ++ d ++ "." ++ t` with `l`, `d`, `t` nonempty and every character
of them neither whitespace nor `@` (`.` itself is such a character, so `d`
and `t` may contain further dots). Encoded by searching for the position
`i` of the `@` and a position `j` of a separating dot: `i ≥ 1` (nonempty
local part), `j ≥ i + 2` (nonempty domain part), `j + 2 ≤ n` (nonempty
tld part), and every position other than `i` holds a non-whitespace,
non-`@` character. -/
def emailRegexTest (s : String) : Bool :=
  let cs := s.data
  let n := cs.length
  (List.range n).any fun i =>
    (List.range n).any fun j =>
      decide (1 ≤ i) && decide (i + 2 ≤ j) && decide (j + 2 ≤ n) &&
      (cs.getD i ' ' == '@') && (cs.getD j ' ' == '.') &&
      ((List.range n).all fun k =>
        (k == i) || (!isJsSpace (cs.getD k ' ') && !(cs.getD k ' ' == '@')))

/-- Result of `evaluatePasswordStrength` (Signup, Login.jsx:311-344): the
`passwordStrength` state triple. -/
structure PasswordStrength where
  score : Nat
  message : String
  color : String
deriving Repr, DecidableEq

/-- Test of `/[A-Z]/` (Login.jsx:327). -/
def containsUpper (s : String) : Bool :=
  s.data.any fun c => decide ('A' ≤ c) && decide (c ≤ 'Z')

/-- Test of `/[0-9]/` (Login.jsx:328). -/
def containsDigit (s : String) : Bool :=
  s.data.any fun c => decide ('0' ≤ c) && decide (c ≤ '9')

/-- Membership in the regex class `[A-Za-z0-9]`. -/
def isAsciiAlnum (c : Char) : Bool :=
  (decide ('A' ≤ c) && decide (c ≤ 'Z')) ||
  (decide ('a' ≤ c) && decide (c ≤ 'z')) ||
  (decide ('0' ≤ c) && decide (c ≤ '9'))

/-- Test of `/[^A-Za-z0-9]/` (Login.jsx:329). -/
def containsNonAlnum (s : String) : Bool :=
  s.data.any fun c => !isAsciiAlnum c

/-- The `score` accumulated by `evaluatePasswordStrength`
(Login.jsx:322-329): the five independent +1 checks. The spec's
`scorePassword` formula uses the same five conditions word for word. -/
def passwordScore (password : String) : Nat :=
  (if password.length ≥ 8 then 1 else 0) +
  (if password.length ≥ 12 then 1 else 0) +
  (if containsUpper password then 1 else 0) +
  (if containsDigit password then 1 else 0) +
  (if containsNonAlnum password then 1 else 0)

/-- Embedding of `Signup.evaluatePasswordStrength` (Login.jsx:311-344):
empty password short-circuits to score 0, blank message, gray color;
otherwise score is the sum of the five +1 checks and message/color follow
the `score < 2` / `score < 4` branches. -/
def evaluatePasswordStrength (password : String) : PasswordStrength :=
  if password = "" then ⟨0, "", "gray"⟩
  else if passwordScore password < 2 then ⟨passwordScore password, "Weak", "red"⟩
  else if passwordScore password < 4 then ⟨passwordScore password, "Moderate", "yellow"⟩
  else ⟨passwordScore password, "Strong", "green"⟩

/-- The spec's `tier` buckets for password strength. -/
inductive Tier where
  | none
  | weak
  | moderate
  | strong
deriving Repr, DecidableEq

/-- The spec's `PasswordStrength` record: numeric score and tier. -/
structure PasswordStrengthSpec where
  score : Nat
  tier : Tier
deriving Repr, DecidableEq

/-- Modelled from the spec (refinement reference, not from the source):
`scorePassword(password)` — score starts at 0; +1 if length ≥ 8; +1 if
length ≥ 12; +1 if contains an uppercase letter; +1 if contains a digit;
+1 if contains a non-alphanumeric character; tier `weak` when score < 2,
`moderate` when 2 ≤ score < 4, `strong` when score ≥ 4; empty password →
score 0, tier `none`. -/
def scorePasswordSpec (password : String) : PasswordStrengthSpec :=
  if password = "" then ⟨0, Tier.none⟩
  else
    ⟨passwordScore password,
     if passwordScore password < 2 then Tier.weak
     else if passwordScore password < 4 then Tier.moderate
     else Tier.strong⟩

/-- Map the UI message of the implementation's strength record to the
spec's tier bucket (blank message ↦ `none`). -/
def tierOfStrength (ps : PasswordStrength) : Tier :=
  if ps.message = "Weak" then Tier.weak
  else if ps.message = "Moderate" then Tier.moderate
  else if ps.message = "Strong" then Tier.strong
  else Tier.none

/-- The persisted `localStorage` record: the three keys the components
read and write (`token`, `userRole`, `email`); `none` models an absent key
(`getItem` returning `null`). -/
structure Storage where
  token : Option String
  userRole : Option String
  email : Option String
deriving Repr, DecidableEq

/-- The JSON body of a success response: `data.token`, `data.role`,
`data.email` — the spec's `AuthResult`. -/
structure AuthResult where
  token : String
  role : String
  email : String
deriving Repr, DecidableEq

/-- Outcome of the single `fetch` + `res.json()` step of one submission:
a non-ok response with its optional `message` field (`rejected`), a
network or parse exception (`transportErr`, carrying the exception
message), or an ok response with its parsed body (`success`). -/
inductive AuthOutcome where
  | rejected (message : Option String)
  | transportErr (excMessage : String)
  | success (result : AuthResult)
deriving Repr, DecidableEq

/-- An outcome other than an ok response. -/
def AuthOutcome.isFailure : AuthOutcome → Bool
  | .success _ => false
  | _ => true

/-- The `location.state` hint (`{ role, from }`) carried into the view. -/
structure NavHint where
  role : Option String
  fromPath : Option String
deriving Repr, DecidableEq

/-- Transient `Login` component state touched by `handleSubmit`. -/
structure LoginState where
  email : String
  password : String
  error : String
  loading : Bool
deriving Repr, DecidableEq

/-- Observable effects of one submission attempt: final `error` and
`loading` values, whether `setLoading(true)` ran at any point
(`loadingWasSet`), the storage after the attempt, the `navigate` target
if any, the number of `fetch` invocations, and the message passed to
`console.error` if any. -/
structure FlowOutput where
  error : String
  loading : Bool
  loadingWasSet : Bool
  storage : Storage
  nav : Option String
  fetchCount : Nat
  logged : Option String
deriving Repr, DecidableEq

/-- Embedding of the `Login` validation guard (Login.jsx:62-65):
`!email.trim() || !password.trim()` yields the fixed error message. -/
def validateLogin (email password : String) : Option String :=
  if jsTrim email = "" ∨ jsTrim password = "" then
    some "Email and password are required"
  else none

/-- The `role` read by `Login` (Login.jsx:37): `location.state?.role || "user"`. -/
def loginRole (hint : NavHint) : String := jsOrElse hint.role "user"

/-- The `from` read by `Login` (Login.jsx:38): `location.state?.from || "/"`. -/
def loginFrom (hint : NavHint) : String := jsOrElse hint.fromPath "/"

/-- Embedding of `Login.handleSubmit` (Login.jsx:58-102). On validation
failure it sets the error and returns before touching `loading` or the
network. Otherwise `setLoading(true)` runs and the `fetch` outcome decides:
any thrown error (the `throw new Error(data.message || "Login failed")` on
a non-ok response, or a network/parse exception) lands in the `catch`,
which logs the error and displays the fixed generic message; on success
the three storage keys are written (`token` and `userRole` from the
response, `email` from the typed input) and `navigate` targets `from`
when it differs from `"/"`, else the role dashboard chosen by
`data.role`. The `finally` clears `loading` on every non-validation
path. -/
def loginHandleSubmit (st : LoginState) (hint : NavHint) (storage : Storage)
    (outcome : AuthOutcome) : FlowOutput :=
  match validateLogin st.email st.password with
  | some msg =>
      { error := msg, loading := st.loading, loadingWasSet := false,
        storage := storage, nav := none, fetchCount := 0, logged := none }
  | none =>
    match outcome with
    | .transportErr m =>
        { error := "An unexpected error occurred. Please try again.",
          loading := false, loadingWasSet := true, storage := storage,
          nav := none, fetchCount := 1, logged := some m }
    | .rejected msg =>
        { error := "An unexpected error occurred. Please try again.",
          loading := false, loadingWasSet := true, storage := storage,
          nav := none, fetchCount := 1, logged := some (jsOrElse msg "Login failed") }
    | .success data =>
        { error := "", loading := false, loadingWasSet := true,
          storage := { token := some data.token, userRole := some data.role,
                       email := some st.email },
          nav := some (if loginFrom hint ≠ "/" then loginFrom hint
                       else if data.role = "admin" then "/admin/dashboard"
                       else "/user/dashboard"),
          fetchCount := 1, logged := none }

/-- Output of a submit gesture that never reaches `handleSubmit`: nothing
changes and no effect runs. -/
def noopOutput (error : String) (loading : Bool) (storage : Storage) : FlowOutput :=
  { error := error, loading := loading, loadingWasSet := false,
    storage := storage, nav := none, fetchCount := 0, logged := none }

/-- Form-level submit of `Login`: the only submit control is the button
rendered with `disabled={loading}` (Login.jsx:167-175), so a submit
gesture while `loading` does not invoke `handleSubmit` at all. -/
def loginFormSubmit (st : LoginState) (hint : NavHint) (storage : Storage)
    (outcome : AuthOutcome) : FlowOutput :=
  if st.loading then noopOutput st.error st.loading storage
  else loginHandleSubmit st hint storage outcome

/-- Form fields of the `Signup` component (`formData`, Login.jsx:248-253). -/
structure SignupForm where
  fullName : String
  email : String
  password : String
  confirmPassword : String
deriving Repr, DecidableEq

/-- Embedding of the validation block of `Signup.handleSubmit`
(Login.jsx:358-386): five sequential checks, each returning its message
immediately; `none` when all pass. Note that the two emptiness checks
trim while the mismatch and length checks use the raw strings. -/
def validateSignup (f : SignupForm) : Option String :=
  if jsTrim f.fullName = "" then some "Full name is required"
  else if jsTrim f.email = "" then some "Email is required"
  else if !emailRegexTest f.email then some "Please enter a valid email address"
  else if f.password ≠ f.confirmPassword then some "Passwords do not match"
  else if f.password.length < 6 then some "Password must be at least 6 characters"
  else none

/-- The ordered list of signup checks, one `(condition fails, message)`
pair per check, in source order: empty full name, empty email, bad email
format, password mismatch, password too short. -/
def signupChecks (f : SignupForm) : List (Bool × String) :=
  [ (decide (jsTrim f.fullName = ""), "Full name is required"),
    (decide (jsTrim f.email = ""), "Email is required"),
    (!emailRegexTest f.email, "Please enter a valid email address"),
    (decide (f.password ≠ f.confirmPassword), "Passwords do not match"),
    (decide (f.password.length < 6), "Password must be at least 6 characters") ]

/-- Embedding of `Signup.handleSubmit` (Login.jsx:352-416) given the
current `role` state. On validation failure the error message is set and
the handler returns with `loading` untouched and no network call.
Otherwise `setLoading(true)` runs, the register `fetch` is issued once,
and: any thrown error (non-ok response or network/parse exception) is
caught, logged, and replaced by the fixed generic message; on success the
storage keys are written — `token` from the response but `userRole` from
the client-side `role` state and `email` from the typed input — and
`navigate` targets the dashboard of the client-side `role`. The `finally`
clears `loading` on every non-validation path. -/
def signupHandleSubmit (f : SignupForm) (loading0 : Bool) (role : String)
    (storage : Storage) (outcome : AuthOutcome) : FlowOutput :=
  match validateSignup f with
  | some msg =>
      { error := msg, loading := loading0, loadingWasSet := false,
        storage := storage, nav := none, fetchCount := 0, logged := none }
  | none =>
    match outcome with
    | .transportErr m =>
        { error := "Failed to create an account. Please try again.",
          loading := false, loadingWasSet := true, storage := storage,
          nav := none, fetchCount := 1, logged := some m }
    | .rejected msg =>
        { error := "Failed to create an account. Please try again.",
          loading := false, loadingWasSet := true, storage := storage,
          nav := none, fetchCount := 1,
          logged := some (jsOrElse msg "Registration failed") }
    | .success data =>
        { error := "", loading := false, loadingWasSet := true,
          storage := { token := some data.token, userRole := some role,
                       email := some f.email },
          nav := some (if role = "admin" then "/admin/dashboard"
                       else "/user/dashboard"),
          fetchCount := 1, logged := none }

/-- Form-level submit of `Signup`: its only submit control is the button
rendered with `disabled={loading}` (Login.jsx:561-568), so a submit
gesture while `loading` does not invoke `handleSubmit` at all. -/
def signupFormSubmit (f : SignupForm) (error0 : String) (loading0 : Bool)
    (role : String) (storage : Storage) (outcome : AuthOutcome) : FlowOutput :=
  if loading0 then noopOutput error0 loading0 storage
  else signupHandleSubmit f loading0 role storage outcome

/-- The `role` state of `Signup` after mount: initialised to `"user"`
(Login.jsx:261) and overwritten by `location.state?.role` only when that
is truthy (Login.jsx:271-273). -/
def signupInitialRole (hint : NavHint) : String := jsOrElse hint.role "user"

/-- The `Signup` flow as mounted from a navigation hint: the component
reads only `state.role` from the hint (Login.jsx:272) — the `from` path
is never consulted — and submits with the resulting role state. -/
def signupFlowSubmit (hint : NavHint) (f : SignupForm) (error0 : String)
    (loading0 : Bool) (storage : Storage) (outcome : AuthOutcome) : FlowOutput :=
  signupFormSubmit f error0 loading0 (signupInitialRole hint) storage outcome

/-- Embedding of the mount effect shared by both components
(Login.jsx:44-50 and 279-285): when `localStorage.getItem("token")` is
truthy (present and nonempty), navigate to the dashboard selected by
comparing the stored `userRole` with `"admin"`; `none` means no redirect
(the form is shown). -/
def checkAuthOnMount (storage : Storage) : Option String :=
  match storage.token with
  | none => none
  | some t =>
      if t = "" then none
      else some (if storage.userRole = some "admin" then "/admin/dashboard"
                 else "/user/dashboard")

example : jsTrim "  a b " = "a b" := by decide
example : emailRegexTest "a@b.co" = true := by decide
example : emailRegexTest "a@b" = false := by decide
example : emailRegexTest "a b@c.d" = false := by decide
example : emailRegexTest "a@b.c.d" = true := by decide
example : emailRegexTest "@b.c" = false := by decide
example : emailRegexTest "a@.c" = false := by decide
example : emailRegexTest "a@b." = false := by decide
example : emailRegexTest "a@@b.c" = false := by decide
example : evaluatePasswordStrength "" = ⟨0, "", "gray"⟩ := by decide
example : evaluatePasswordStrength "abcdefgh" = ⟨1, "Weak", "red"⟩ := by decide
example : (evaluatePasswordStrength "Abcdefgh1!").score = 4 := by decide

/-! ## Helper lemmas -/

/-- Trimming a string all of whose characters are JavaScript whitespace
yields the empty string. -/
theorem jsTrim_eq_empty_of_all_space (s : String)
    (h : ∀ c ∈ s.data, isJsSpace c = true) : jsTrim s = "" := by
  unfold jsTrim
  have h1 : s.data.dropWhile isJsSpace = [] :=
    List.dropWhile_eq_nil_iff.mpr (by simpa using h)
  simp [h1]

/-! ## Claims -/

/-- C5: `validateSignup` surfaces exactly the message of the first failing
check in source order — empty full name, empty email, invalid email
format, password mismatch, password too short — and `none` when every
check passes; returning at the first failure, it surfaces at most one
error per input. -/
theorem C5_validateSignup_first_failing (f : SignupForm) :
    validateSignup f
      = ((signupChecks f).find? (fun p => p.1)).map (fun p => p.2) := by
  simp only [validateSignup, signupChecks, List.find?]
  by_cases h1 : jsTrim f.fullName = "" <;>
  by_cases h2 : jsTrim f.email = "" <;>
  by_cases h3 : emailRegexTest f.email = true <;>
  by_cases h4 : f.password = f.confirmPassword <;>
  by_cases h5 : f.confirmPassword.length < 6 <;>
  simp [h1, h2, h3, h4, h5]

/-- C6 counterexample: the claim's example says the password
"Abcdefgh1!" scores 5, but it is 10 characters long, so the length ≥ 12
check does not fire and only four of the five checks contribute: the
code computes score 4. -/
theorem C6_counterexample :
    (evaluatePasswordStrength "Abcdefgh1!").score = 4 ∧
    ¬ (evaluatePasswordStrength "Abcdefgh1!").score = 5 := by decide

/-- C6 amended: for every password the implementation's score equals the
spec's five-indicator sum and its message corresponds to the spec's tier
mapping (score < 2 weak, < 4 moderate, otherwise strong, empty password
none/0); the examples are "" to score 0 tier none, "abcdefgh" to score 1
tier weak, and "Abcdefgh1!" to score 4 (not 5) tier strong. -/
theorem C6_amended_score_and_tier (password : String) :
    (evaluatePasswordStrength password).score = (scorePasswordSpec password).score ∧
    tierOfStrength (evaluatePasswordStrength password) = (scorePasswordSpec password).tier ∧
    evaluatePasswordStrength "" = ⟨0, "", "gray"⟩ ∧
    tierOfStrength (evaluatePasswordStrength "") = Tier.none ∧
    (evaluatePasswordStrength "abcdefgh").score = 1 ∧
    tierOfStrength (evaluatePasswordStrength "abcdefgh") = Tier.weak ∧
    (evaluatePasswordStrength "Abcdefgh1!").score = 4 ∧
    tierOfStrength (evaluatePasswordStrength "Abcdefgh1!") = Tier.strong := by
  refine ⟨?_, ?_, by decide, by decide, by decide, by decide, by decide, by decide⟩
  · by_cases h : password = ""
    · subst h; decide
    · unfold evaluatePasswordStrength scorePasswordSpec
      simp only [h, if_false]
      split_ifs <;> rfl
  · by_cases h : password = ""
    · subst h; decide
    · unfold evaluatePasswordStrength scorePasswordSpec
      simp only [h, if_false]
      split_ifs <;> rfl

/-- C1 counterexample: valid credentials, and the auth service rejects
with the server-supplied message "Invalid credentials"; the displayed
error is the fixed generic message, not "Invalid credentials" — the
thrown server message is discarded by the catch block (it reaches only
the console log). -/
theorem C1_counterexample :
    (loginHandleSubmit ⟨"a@b.co", "secret", "", false⟩ ⟨none, none⟩
        ⟨none, none, none⟩ (AuthOutcome.rejected (some "Invalid credentials"))).error
      = "An unexpected error occurred. Please try again." ∧
    ¬ (loginHandleSubmit ⟨"a@b.co", "secret", "", false⟩ ⟨none, none⟩
        ⟨none, none, none⟩ (AuthOutcome.rejected (some "Invalid credentials"))).error
      = "Invalid credentials" ∧
    (loginHandleSubmit ⟨"a@b.co", "secret", "", false⟩ ⟨none, none⟩
        ⟨none, none, none⟩ (AuthOutcome.rejected (some "Invalid credentials"))).logged
      = some "Invalid credentials" := by decide

/-- C1 amended: when validation passes and the service responds with a
non-success status, the displayed error is always the fixed generic
message — "An unexpected error occurred. Please try again." on login and
"Failed to create an account. Please try again." on registration —
whatever message the server supplied (even none); the server-supplied
message (or its generic "Login failed" / "Registration failed" fallback)
is only passed to the console log. -/
theorem C1_amended_generic_rejection_error (st : LoginState) (hint : NavHint)
    (storage : Storage) (msg : Option String) (f : SignupForm) (loading0 : Bool)
    (role : String) (storage2 : Storage) (msg2 : Option String)
    (hv : validateLogin st.email st.password = none)
    (hv2 : validateSignup f = none) :
    (loginHandleSubmit st hint storage (AuthOutcome.rejected msg)).error
      = "An unexpected error occurred. Please try again." ∧
    (loginHandleSubmit st hint storage (AuthOutcome.rejected msg)).logged
      = some (jsOrElse msg "Login failed") ∧
    (signupHandleSubmit f loading0 role storage2 (AuthOutcome.rejected msg2)).error
      = "Failed to create an account. Please try again." ∧
    (signupHandleSubmit f loading0 role storage2 (AuthOutcome.rejected msg2)).logged
      = some (jsOrElse msg2 "Registration failed") := by
  simp [loginHandleSubmit, signupHandleSubmit, hv, hv2]

theorem C1_amended_generic_rejection_error_witness :
    (loginHandleSubmit ⟨"a@b.co", "secret", "", false⟩ ⟨none, none⟩
        ⟨none, none, none⟩ (AuthOutcome.rejected (some "Invalid credentials"))).error
      = "An unexpected error occurred. Please try again." ∧
    (signupHandleSubmit ⟨"Ann", "a@b.co", "secret1", "secret1"⟩ false "user"
        ⟨none, none, none⟩ (AuthOutcome.rejected (some "Email already used"))).error
      = "Failed to create an account. Please try again." :=
  ⟨(C1_amended_generic_rejection_error ⟨"a@b.co", "secret", "", false⟩ ⟨none, none⟩
      ⟨none, none, none⟩ (some "Invalid credentials")
      ⟨"Ann", "a@b.co", "secret1", "secret1"⟩ false "user" ⟨none, none, none⟩
      (some "Email already used") (by decide) (by decide)).1,
   (C1_amended_generic_rejection_error ⟨"a@b.co", "secret", "", false⟩ ⟨none, none⟩
      ⟨none, none, none⟩ (some "Invalid credentials")
      ⟨"Ann", "a@b.co", "secret1", "secret1"⟩ false "user" ⟨none, none, none⟩
      (some "Email already used") (by decide) (by decide)).2.2.1⟩

/-- C2: a submit gesture while `loading` is true is a no-op on either
form (the sole submit control is disabled): the state, storage and
navigation are untouched and no fetch is issued; and a submission
accepted while `loading` is false and validation passes issues exactly
one fetch. -/
theorem C2_resubmit_noop (st : LoginState) (hint : NavHint) (storage : Storage)
    (outcome : AuthOutcome) (f : SignupForm) (error0 role : String)
    (storage2 : Storage) (outcome2 : AuthOutcome)
    (h : st.loading = true) :
    loginFormSubmit st hint storage outcome
      = noopOutput st.error st.loading storage ∧
    (loginFormSubmit st hint storage outcome).fetchCount = 0 ∧
    signupFormSubmit f error0 true role storage2 outcome2
      = noopOutput error0 true storage2 ∧
    (signupFormSubmit f error0 true role storage2 outcome2).fetchCount = 0 ∧
    (∀ st2 : LoginState, st2.loading = false →
        validateLogin st2.email st2.password = none →
        (loginFormSubmit st2 hint storage outcome).fetchCount = 1) ∧
    (∀ g : SignupForm, validateSignup g = none →
        (signupFormSubmit g error0 false role storage2 outcome2).fetchCount = 1) := by
  refine ⟨?_, ?_, ?_, ?_, ?_, ?_⟩
  · simp [loginFormSubmit, h]
  · simp [loginFormSubmit, h, noopOutput]
  · simp [signupFormSubmit]
  · simp [signupFormSubmit, noopOutput]
  · intro st2 h2 hv
    cases outcome <;> simp [loginFormSubmit, h2, loginHandleSubmit, hv]
  · intro g hv
    cases outcome2 <;> simp [signupFormSubmit, signupHandleSubmit, hv]

theorem C2_resubmit_noop_witness :
    loginFormSubmit ⟨"a@b.co", "secret", "", true⟩ ⟨none, none⟩ ⟨none, none, none⟩
        (AuthOutcome.transportErr "connection refused")
      = noopOutput "" true ⟨none, none, none⟩ :=
  (C2_resubmit_noop ⟨"a@b.co", "secret", "", true⟩ ⟨none, none⟩ ⟨none, none, none⟩
      (AuthOutcome.transportErr "connection refused")
      ⟨"Ann", "a@b.co", "secret1", "secret1"⟩ "" "user" ⟨none, none, none⟩
      (AuthOutcome.transportErr "connection refused") rfl).1

/-- C3 counterexample: a successful login whose response body carries
the email "server@remote.co" stores the typed input "typed@client.co"
under the `email` key — the stored email is taken from client-side
input, not mapped from the AuthResult. -/
theorem C3_counterexample :
    (loginHandleSubmit ⟨"typed@client.co", "secret", "", false⟩ ⟨none, none⟩
        ⟨none, none, none⟩
        (AuthOutcome.success ⟨"tok", "user", "server@remote.co"⟩)).storage.email
      = some "typed@client.co" ∧
    ¬ (loginHandleSubmit ⟨"typed@client.co", "secret", "", false⟩ ⟨none, none⟩
        ⟨none, none, none⟩
        (AuthOutcome.success ⟨"tok", "user", "server@remote.co"⟩)).storage.email
      = some "server@remote.co" := by decide

/-- C3 amended: on success the stored token is `AuthResult.token`, but
the stored email is the client-side typed email on both flows, and the
stored role is `AuthResult.role` on login while on signup it is the
client-side chosen role — not a 1:1 mapping of the AuthResult. -/
theorem C3_amended_storage_fields (st : LoginState) (hint : NavHint)
    (storage : Storage) (data : AuthResult) (f : SignupForm) (role : String)
    (storage2 : Storage) (data2 : AuthResult)
    (hv : validateLogin st.email st.password = none)
    (hv2 : validateSignup f = none) :
    (loginHandleSubmit st hint storage (AuthOutcome.success data)).storage
      = ⟨some data.token, some data.role, some st.email⟩ ∧
    (signupHandleSubmit f false role storage2 (AuthOutcome.success data2)).storage
      = ⟨some data2.token, some role, some f.email⟩ := by
  simp [loginHandleSubmit, signupHandleSubmit, hv, hv2]

theorem C3_amended_storage_fields_witness :
    (loginHandleSubmit ⟨"typed@client.co", "secret", "", false⟩ ⟨none, none⟩
        ⟨none, none, none⟩
        (AuthOutcome.success ⟨"tok", "user", "server@remote.co"⟩)).storage
      = ⟨some "tok", some "user", some "typed@client.co"⟩ :=
  (C3_amended_storage_fields ⟨"typed@client.co", "secret", "", false⟩ ⟨none, none⟩
      ⟨none, none, none⟩ ⟨"tok", "user", "server@remote.co"⟩
      ⟨"Ann", "a@b.co", "secret1", "secret1"⟩ "user" ⟨none, none, none⟩
      ⟨"tok2", "user", "a@b.co"⟩ (by decide) (by decide)).1

/-- C4 counterexample: the signup flow mounted with an intended
destination "/orders" recorded in the navigation state redirects to the
role dashboard after a successful registration, not to "/orders" — the
signup component never consults the intended destination. -/
theorem C4_counterexample :
    (signupFlowSubmit ⟨some "user", some "/orders"⟩
        ⟨"Ann", "a@b.co", "secret1", "secret1"⟩ "" false ⟨none, none, none⟩
        (AuthOutcome.success ⟨"tok", "user", "a@b.co"⟩)).nav
      = some "/user/dashboard" ∧
    ¬ (signupFlowSubmit ⟨some "user", some "/orders"⟩
        ⟨"Ann", "a@b.co", "secret1", "secret1"⟩ "" false ⟨none, none, none⟩
        (AuthOutcome.success ⟨"tok", "user", "a@b.co"⟩)).nav
      = some "/orders" := by decide

/-- C4 amended: the stated resolution order — intended destination when
present and different from "/", else the role dashboard — holds for the
login flow (with the role taken from the server's response), and with
"/orders" recorded a successful login redirects to "/orders"; the signup
flow, however, ignores the intended destination entirely and always
redirects to the dashboard of the client-side role state, so its output
does not depend on the recorded destination at all. -/
theorem C4_amended_redirect_resolution (st : LoginState) (hint : NavHint)
    (storage : Storage) (data : AuthResult) (hr : Option String) (f : SignupForm)
    (error0 : String) (storage2 : Storage) (data2 : AuthResult)
    (hint2 hint3 : NavHint)
    (hv : validateLogin st.email st.password = none)
    (hv2 : validateSignup f = none)
    (hrole : hint2.role = hint3.role) :
    (loginHandleSubmit st hint storage (AuthOutcome.success data)).nav
      = some (if loginFrom hint ≠ "/" then loginFrom hint
              else if data.role = "admin" then "/admin/dashboard"
              else "/user/dashboard") ∧
    (loginHandleSubmit st ⟨hr, some "/orders"⟩ storage
        (AuthOutcome.success data)).nav = some "/orders" ∧
    (signupFlowSubmit hint2 f error0 false storage2
        (AuthOutcome.success data2)).nav
      = some (if signupInitialRole hint2 = "admin" then "/admin/dashboard"
              else "/user/dashboard") ∧
    signupFlowSubmit hint2 f error0 false storage2 (AuthOutcome.success data2)
      = signupFlowSubmit hint3 f error0 false storage2 (AuthOutcome.success data2) := by
  refine ⟨?_, ?_, ?_, ?_⟩
  · simp [loginHandleSubmit, hv]
  · simp [loginHandleSubmit, hv, loginFrom, jsOrElse]
  · simp [signupFlowSubmit, signupFormSubmit, signupHandleSubmit, hv2]
  · simp [signupFlowSubmit, signupInitialRole, hrole]

theorem C4_amended_redirect_resolution_witness :
    (loginHandleSubmit ⟨"a@b.co", "secret", "", false⟩
        ⟨none, some "/orders"⟩ ⟨none, none, none⟩
        (AuthOutcome.success ⟨"tok", "user", "a@b.co"⟩)).nav = some "/orders" :=
  (C4_amended_redirect_resolution ⟨"a@b.co", "secret", "", false⟩
      ⟨none, some "/orders"⟩ ⟨none, none, none⟩ ⟨"tok", "user", "a@b.co"⟩ none
      ⟨"Ann", "a@b.co", "secret1", "secret1"⟩ "" ⟨none, none, none⟩
      ⟨"tok2", "user", "a@b.co"⟩ ⟨some "user", some "/orders"⟩
      ⟨some "user", none⟩ (by decide) (by decide) rfl).2.1

/-- C7: when validation fails, on either form, the attempt produces the
validation error message, no fetch is issued, `setLoading(true)` never
runs, the loading flag keeps its prior (false) value, storage is
untouched and no navigation happens. -/
theorem C7_validation_failure_no_network (st : LoginState) (hint : NavHint)
    (storage : Storage) (outcome : AuthOutcome) (msg : String) (f : SignupForm)
    (loading0 : Bool) (role : String) (storage2 : Storage)
    (outcome2 : AuthOutcome) (msg2 : String)
    (hv : validateLogin st.email st.password = some msg)
    (hv2 : validateSignup f = some msg2) :
    loginHandleSubmit st hint storage outcome
      = { error := msg, loading := st.loading, loadingWasSet := false,
          storage := storage, nav := none, fetchCount := 0, logged := none } ∧
    signupHandleSubmit f loading0 role storage2 outcome2
      = { error := msg2, loading := loading0, loadingWasSet := false,
          storage := storage2, nav := none, fetchCount := 0, logged := none } := by
  simp [loginHandleSubmit, signupHandleSubmit, hv, hv2]

theorem C7_validation_failure_no_network_witness :
    loginHandleSubmit ⟨"a@b.co", "", "", false⟩ ⟨none, none⟩ ⟨none, none, none⟩
        (AuthOutcome.success ⟨"tok", "user", "a@b.co"⟩)
      = { error := "Email and password are required", loading := false,
          loadingWasSet := false, storage := ⟨none, none, none⟩, nav := none,
          fetchCount := 0, logged := none } :=
  (C7_validation_failure_no_network ⟨"a@b.co", "", "", false⟩ ⟨none, none⟩
      ⟨none, none, none⟩ (AuthOutcome.success ⟨"tok", "user", "a@b.co"⟩)
      "Email and password are required" ⟨"Ann", "a@b.co", "abc", "abc"⟩ false
      "user" ⟨none, none, none⟩ (AuthOutcome.success ⟨"tok", "user", "a@b.co"⟩)
      "Password must be at least 6 characters" (by decide) (by decide)).1

/-- C8: an attempt that fails — validation error, non-success response
or transport error — leaves the persisted storage exactly as it was, and
the loading flag is false when the attempt ends (on both forms, starting
from a non-loading state). -/
theorem C8_failed_attempt_no_session (st : LoginState) (hint : NavHint)
    (storage : Storage) (outcome : AuthOutcome) (f : SignupForm)
    (error0 role : String) (storage2 : Storage) (outcome2 : AuthOutcome)
    (hl : st.loading = false)
    (hfail : (validateLogin st.email st.password).isSome = true ∨
             outcome.isFailure = true)
    (hfail2 : (validateSignup f).isSome = true ∨ outcome2.isFailure = true) :
    (loginFormSubmit st hint storage outcome).storage = storage ∧
    (loginFormSubmit st hint storage outcome).loading = false ∧
    (signupFormSubmit f error0 false role storage2 outcome2).storage = storage2 ∧
    (signupFormSubmit f error0 false role storage2 outcome2).loading = false := by
  have hlogin : (loginHandleSubmit st hint storage outcome).storage = storage ∧
      (loginHandleSubmit st hint storage outcome).loading = false := by
    rcases hfail with hv | hout
    · obtain ⟨msg, hmsg⟩ := Option.isSome_iff_exists.mp hv
      simp [loginHandleSubmit, hmsg, hl]
    · cases houtc : outcome with
      | success r => rw [houtc] at hout; simp [AuthOutcome.isFailure] at hout
      | rejected m =>
          cases hvv : validateLogin st.email st.password <;>
            simp [loginHandleSubmit, hvv, hl]
      | transportErr m =>
          cases hvv : validateLogin st.email st.password <;>
            simp [loginHandleSubmit, hvv, hl]
  have hsignup : (signupHandleSubmit f false role storage2 outcome2).storage = storage2 ∧
      (signupHandleSubmit f false role storage2 outcome2).loading = false := by
    rcases hfail2 with hv | hout
    · obtain ⟨msg, hmsg⟩ := Option.isSome_iff_exists.mp hv
      simp [signupHandleSubmit, hmsg]
    · cases houtc : outcome2 with
      | success r => rw [houtc] at hout; simp [AuthOutcome.isFailure] at hout
      | rejected m =>
          cases hvv : validateSignup f <;> simp [signupHandleSubmit, hvv]
      | transportErr m =>
          cases hvv : validateSignup f <;> simp [signupHandleSubmit, hvv]
  refine ⟨?_, ?_, ?_, ?_⟩
  · simpa [loginFormSubmit, hl] using hlogin.1
  · simpa [loginFormSubmit, hl] using hlogin.2
  · simpa [signupFormSubmit] using hsignup.1
  · simpa [signupFormSubmit] using hsignup.2

theorem C8_failed_attempt_no_session_witness :
    (loginFormSubmit ⟨"a@b.co", "secret", "", false⟩ ⟨none, none⟩
        ⟨some "oldtok", some "user", some "old@b.co"⟩
        (AuthOutcome.rejected (some "Invalid credentials"))).storage
      = ⟨some "oldtok", some "user", some "old@b.co"⟩ :=
  (C8_failed_attempt_no_session ⟨"a@b.co", "secret", "", false⟩ ⟨none, none⟩
      ⟨some "oldtok", some "user", some "old@b.co"⟩
      (AuthOutcome.rejected (some "Invalid credentials"))
      ⟨"Ann", "a@b.co", "secret1", "secret1"⟩ "" "user" ⟨none, none, none⟩
      (AuthOutcome.transportErr "connection refused") rfl
      (Or.inr rfl) (Or.inr rfl)).1

/-- C9: on mount of either flow, a truthy stored token triggers an
immediate redirect (so the form is not shown) to "/admin/dashboard" when
the stored role is "admin" and to "/user/dashboard" for any other stored
role value (including an absent one). -/
theorem C9_mount_redirect (storage : Storage) (t : String)
    (ht : storage.token = some t) (hne : ¬ t = "") :
    checkAuthOnMount storage
      = some (if storage.userRole = some "admin" then "/admin/dashboard"
              else "/user/dashboard") ∧
    (checkAuthOnMount storage).isSome = true := by
  simp [checkAuthOnMount, ht, hne]

theorem C9_mount_redirect_witness :
    checkAuthOnMount ⟨some "tok", some "admin", some "a@b.co"⟩
      = some (if (⟨some "tok", some "admin", some "a@b.co"⟩ : Storage).userRole
                = some "admin"
              then "/admin/dashboard" else "/user/dashboard") :=
  (C9_mount_redirect ⟨some "tok", some "admin", some "a@b.co"⟩ "tok" rfl
      (by decide)).1

/-- C10: the signup length check uses the raw password, so any
all-whitespace password of length at least 6 (confirmed identically)
passes signup validation and is submitted — the register fetch is issued
— while the login form rejects any all-whitespace password as empty
because it trims before testing emptiness. -/
theorem C10_whitespace_password_accepted (f : SignupForm)
    (hname : ¬ jsTrim f.fullName = "")
    (hemail : ¬ jsTrim f.email = "")
    (hfmt : emailRegexTest f.email = true)
    (hws : ∀ c ∈ f.password.data, isJsSpace c = true)
    (hlen : 6 ≤ f.password.length)
    (hconf : f.confirmPassword = f.password) :
    validateSignup f = none ∧
    (∀ (loading0 : Bool) (role : String) (storage : Storage)
        (outcome : AuthOutcome),
        (signupHandleSubmit f loading0 role storage outcome).fetchCount = 1) ∧
    (∀ em : String,
        validateLogin em f.password = some "Email and password are required") := by
  have hnl : ¬ f.password.length < 6 := Nat.not_lt.mpr hlen
  have hvs : validateSignup f = none := by
    simp [validateSignup, hname, hemail, hfmt, hconf, hnl]
  refine ⟨hvs, ?_, ?_⟩
  · intro loading0 role storage outcome
    cases outcome <;> simp [signupHandleSubmit, hvs]
  · intro em
    have htr : jsTrim f.password = "" := jsTrim_eq_empty_of_all_space _ hws
    simp [validateLogin, htr]

theorem C10_whitespace_password_accepted_witness :
    validateSignup ⟨"Ann", "a@b.co", "      ", "      "⟩ = none :=
  (C10_whitespace_password_accepted ⟨"Ann", "a@b.co", "      ", "      "⟩
      (by decide) (by decide) (by decide) (by decide) (by decide) rfl).1
